import Mathlib

/-!
Verification of the Thermalize browser client (src/static/app.js and the
earlier variant src/unnamed/part_000) against its specification.

The JavaScript is embedded shallowly: network responses become explicit
data, `fetch`/`res.json()` failure becomes `Option`, DOM state becomes
records, and the debounce timer becomes a single-slot deadline threaded
through an event trace.  Every definition mirrors the corresponding source
function; the theorems below settle the specification claims.
-/

namespace Thermalize

/-! ## API client (`callApi`, app.js lines 128-142; part_000 lines 115-129)

`callApi(url, method, body)` wraps `fetch`.  A transport failure makes
`fetch` reject; otherwise a `Response` arrives with a numeric status.
`res.ok` is true exactly for 2xx statuses.  `res.json()` rejects when the
body is not valid JSON, which we model as `json = none`; a successful
parse of type `α` is `json = some v`.  The body of `callApi` is

    const res = await fetch(url, options);
    if (!res.ok) throw new Error(...);
    return method === 'GET' || res.status !== 204 ? await res.json() : null;

with a surrounding `try`/`catch` that turns any rejection into `null`. -/

inductive Method where
  | GET
  | POST
  | DELETE
deriving DecidableEq, Repr

/-- A settled HTTP response: numeric status plus the outcome that
`res.json()` would produce (`none` when the body fails to parse). -/
structure Response (α : Type) where
  status : Nat
  json : Option α
deriving DecidableEq, Repr

/-- `res.ok` in the Fetch API: status in the inclusive range 200-299. -/
def Response.ok {α : Type} (r : Response α) : Bool :=
  200 ≤ r.status && r.status < 300

/-- What `await fetch(...)` yields: a rejection (network failure) or a
response object. -/
inductive FetchOutcome (α : Type) where
  | networkError
  | response (r : Response α)
deriving DecidableEq, Repr

/-- `callApi`, instrumented: the first component is the value returned to
the caller (`none` models JavaScript `null`), the second records whether
`res.json()` was invoked on the body. -/
def callApiRun {α : Type} (method : Method) (f : FetchOutcome α) :
    Option α × Bool :=
  match f with
  | .networkError => (none, false)
  | .response r =>
    if r.ok then
      if method = .GET ∨ r.status ≠ 204 then
        -- `await res.json()`: a parse failure rejects and the catch
        -- block returns null.
        match r.json with
        | some v => (some v, true)
        | none => (none, true)
      else
        (none, false)
    else
      -- `throw new Error(...)` caught by the catch block.
      (none, false)

/-- The value `callApi` hands back to its caller. -/
def callApi {α : Type} (method : Method) (f : FetchOutcome α) : Option α :=
  (callApiRun method f).1

/-- Whether the run attempted to parse the response body. -/
def bodyParsed {α : Type} (method : Method) (f : FetchOutcome α) : Bool :=
  (callApiRun method f).2

end Thermalize

namespace Thermalize

/-! ### Claims C3, C4, C10 -/

/-- C3. For every method and fetch outcome, `callApi` is total (the
embedding returns a value on every branch, so it never raises): a network
failure yields `null`, a non-2xx status yields `null`, a 2xx response
whose body fails to parse yields `null`, and a 2xx response whose body
parses yields the parsed result.  The hypothesis records the HTTP fact
that a 204 No Content response has no parseable body. -/
theorem c3_callApi_never_raises {α : Type} (method : Method)
    (f : FetchOutcome α)
    (h204 : ∀ r : Response α, f = .response r → r.status = 204 → r.json = none) :
    callApi method f =
      match f with
      | .networkError => none
      | .response r => if r.ok then r.json else none := by
  cases f with
  | networkError => rfl
  | response r =>
    by_cases hok : r.ok
    · by_cases hbranch : method = .GET ∨ r.status ≠ 204
      · cases hj : r.json <;>
          simp [callApi, callApiRun, hok, hbranch, hj]
      · push_neg at hbranch
        have h2 := h204 r rfl hbranch.2
        simp [callApi, callApiRun, hok, hbranch.1, hbranch.2, h2]
    · simp [callApi, callApiRun, hok]

/-- Witness for C3 at a concrete input: a 2xx GET whose body parses to 7
returns the parsed result. -/
theorem c3_callApi_never_raises_witness :
    callApi .GET (.response (⟨200, some 7⟩ : Response Nat)) = some 7 := by
  have h := c3_callApi_never_raises (α := Nat) .GET
    (.response ⟨200, some 7⟩) (by intro r hr; cases hr; decide)
  simpa using h

/-- C4 counterexample (closed): the claim says every GET request skips
body parsing, but a 2xx GET response is parsed — `bodyParsed` is true. -/
theorem c4_counterexample :
    bodyParsed .GET (.response (⟨200, some 42⟩ : Response Nat)) = true := by
  decide

/-- C4 amended: body parsing is skipped only for a successful *non-GET*
response with status 204; a GET response that passed the `ok` check is
always parsed (even a GET 204), and a non-GET 2xx response other than 204
is parsed as well. -/
theorem c4_body_parse_short_circuit {α : Type} (method : Method)
    (r : Response α) (hok : r.ok = true) :
    bodyParsed method (.response r) =
      (decide (method = .GET) || decide (r.status ≠ 204)) := by
  by_cases hbranch : method = .GET ∨ r.status ≠ 204
  · have : bodyParsed method (.response r) = true := by
      cases hj : r.json <;> simp [bodyParsed, callApiRun, hok, hbranch, hj]
    rw [this]
    rcases hbranch with h | h <;> simp [h]
  · push_neg at hbranch
    simp [bodyParsed, callApiRun, hok, hbranch.1, hbranch.2]

/-- Witness for C4 amended: a successful non-GET 204 skips parsing. -/
theorem c4_body_parse_short_circuit_witness :
    bodyParsed .DELETE (.response (⟨204, none⟩ : Response Nat)) = false := by
  have h := c4_body_parse_short_circuit (α := Nat) .DELETE ⟨204, none⟩
    (by decide)
  simpa using h

/-- C10. A successful 204 No Content on a non-GET request (such as
DELETE /api/images/{id}) makes `callApi` return `null` — the very value it
returns on a network failure — so a caller like `deleteCurrentImage`
cannot tell a successful deletion from a failed one by the return value. -/
theorem c10_delete_success_indistinguishable {α : Type} (method : Method)
    (r : Response α) (hm : method ≠ .GET) (hs : r.status = 204) :
    callApi method (.response r) = none ∧
      callApi method (.networkError : FetchOutcome α) = none := by
  constructor
  · have hok : r.ok = true := by simp [Response.ok, hs]
    simp [callApi, callApiRun, hok, hm, hs]
  · rfl

/-- Witness for C10: DELETE with a 204 response returns `null`, equal to
the network-failure return. -/
theorem c10_delete_success_indistinguishable_witness :
    callApi .DELETE (.response (⟨204, none⟩ : Response Nat)) = none ∧
      callApi .DELETE (.networkError : FetchOutcome Nat) = none :=
  c10_delete_success_indistinguishable .DELETE ⟨204, none⟩
    (by decide) (by decide)

end Thermalize

namespace Thermalize

/-! ## Debounced settings synchronizer
(`scheduleProcessUpdate`, app.js lines 312-336; part_000 lines 228-249)

    function scheduleProcessUpdate() {
        if (debounceTimer) clearTimeout(debounceTimer);
        debounceTimer = setTimeout(async () => {
            if (!currentImageId) return;
            const payload = { ...control values... };
            await callApi(`/api/images/${currentImageId}/process`, 'POST', payload);
            ...
        }, 600);
    }

The timer is a single slot: scheduling replaces any pending deadline with
`now + 600`.  When the deadline is reached the callback reads the shared
`currentImageId` and the control values *at that moment* — nothing is
captured at schedule time.  We model the page as a state carrying the
pending deadline, the control values, the active image id, and the
process requests issued so far, and drive it with a trace of timestamped
events. -/

/-- The five editor controls, as the payload snapshot reads them
(`parseInt` on the offsets, `.checked` on the booleans). -/
structure Controls where
  x_offset : Int
  y_offset : Int
  auto_fit : Bool
  dither_method : String
  raw_mode : Bool
deriving DecidableEq, Repr

/-- Shared page state relevant to the debounce flow. -/
structure AppState where
  /-- `debounceTimer`: the deadline of the pending callback, if any. -/
  pending : Option Nat
  /-- Current values of the editor controls. -/
  controls : Controls
  /-- `currentImageId`: null until the first editor is opened.  The
  source assigns it only in `openEditor`; no path ever resets it to null
  (the close button just hides the modal, app.js lines 54-64). -/
  currentImageId : Option String
  /-- POST /api/images/{id}/process requests issued so far, oldest first:
  target image id paired with the payload snapshot. -/
  requests : List (String × Controls)
deriving DecidableEq, Repr

/-- Run the pending timer callback if its deadline has arrived by time
`t`: the callback re-reads `currentImageId`; when a session is active it
snapshots the current controls and issues one process request. -/
def fireIfDue (t : Nat) (s : AppState) : AppState :=
  match s.pending with
  | none => s
  | some d =>
    if d ≤ t then
      { pending := none
        controls := s.controls
        currentImageId := s.currentImageId
        requests :=
          match s.currentImageId with
          | none => s.requests
          | some id => s.requests ++ [(id, s.controls)] }
    else s

/-- The `position` field of an image record: `{x, y}`, either coordinate
possibly absent. -/
structure ImgPosition where
  x : Option Int
  y : Option Int
deriving DecidableEq, Repr

/-- An entry of the image list as `openEditor(image)` reads it. -/
structure EditorImage where
  id : String
  position : Option ImgPosition
  dither_method : Option String
  auto_fit : Option Bool
  raw_mode : Option Bool
deriving DecidableEq, Repr

/-- The control values `openEditor` loads (app.js lines 291-295):

    UI.controls.xOffset.value = image.position?.x || 0;
    UI.controls.yOffset.value = image.position?.y || 0;
    UI.controls.dither.value = image.dither_method || 'floyd_steinberg';
    UI.controls.autoFit.checked = image.auto_fit !== false;
    UI.controls.rawMode.checked = image.raw_mode || false;

Assigning `.value`/`.checked` programmatically fires no input event, so
none of these writes re-arms the debounce timer. -/
def loadControls (img : EditorImage) : Controls :=
  { x_offset := (img.position.bind ImgPosition.x).getD 0
    y_offset := (img.position.bind ImgPosition.y).getD 0
    auto_fit :=
      match img.auto_fit with
      | some false => false
      | _ => true
    dither_method :=
      match img.dither_method with
      | some s => if s = "" then "floyd_steinberg" else s
      | none => "floyd_steinberg"
    raw_mode := img.raw_mode.getD false }

/-- Timestamped events hitting the page.  An `input` event updates the
controls and calls `scheduleProcessUpdate`; an `openEditor` event is the
user opening an image's editor, which sets `currentImageId` and loads
that image's stored settings into all five controls (app.js lines
287-300).  Neither touches the debounce timer.  Closing the editor needs
no event: the close handler only hides the modal (app.js lines 54-64)
and leaves every field of this state unchanged. -/
inductive Ev where
  | input (t : Nat) (c : Controls)
  | openEditor (t : Nat) (img : EditorImage)
deriving DecidableEq, Repr

/-- The timestamp of an event. -/
def Ev.time : Ev → Nat
  | .input t _ => t
  | .openEditor t _ => t

/-- One event: any timer due by the event's time runs first, then the
handler runs.  `scheduleProcessUpdate` cancels the pending slot and
re-arms it 600ms after the event; `openEditor` rewrites the session id
and the controls but leaves the timer slot alone. -/
def stepEv (s : AppState) (e : Ev) : AppState :=
  let s1 := fireIfDue e.time s
  match e with
  | .input t c =>
    { pending := some (t + 600)
      controls := c
      currentImageId := s1.currentImageId
      requests := s1.requests }
  | .openEditor _ img =>
    { pending := s1.pending
      controls := loadControls img
      currentImageId := some img.id
      requests := s1.requests }

/-- Run a time-ordered trace of events. -/
def runEvents (s : AppState) : List Ev → AppState
  | [] => s
  | e :: es => runEvents (stepEv s e) es

/-- Let the clock run out: the pending callback, if any, eventually
fires with the state as it stands. -/
def settle (s : AppState) : AppState :=
  match s.pending with
  | none => s
  | some _ =>
    { pending := none
      controls := s.controls
      currentImageId := s.currentImageId
      requests :=
        match s.currentImageId with
        | none => s.requests
        | some id => s.requests ++ [(id, s.controls)] }

/-- A burst: consecutive input events are time-ordered and each arrives
strictly inside the 600ms quiet period of its predecessor. -/
def withinQuiet (a b : Nat × Controls) : Prop :=
  a.1 ≤ b.1 ∧ b.1 < a.1 + 600

/-- Initial page state for a debounce scenario: no timer pending, no
requests issued yet. -/
def initState (c : Controls) (iid : Option String) : AppState :=
  { pending := none, controls := c, currentImageId := iid, requests := [] }

/-- An input event from a (time, controls) pair. -/
def mkInput (p : Nat × Controls) : Ev := .input p.1 p.2

end Thermalize

namespace Thermalize

/-- Running the rest of a burst from a state whose timer slot was armed
by the previous event never lets the timer fire: the run ends with the
slot armed by the burst's last event, the controls holding that event's
values, and the image id and request log untouched. -/
theorem burst_run_eq (bs : List (Nat × Controls)) :
    ∀ (p : Nat × Controls) (iid : Option String)
      (reqs : List (String × Controls)),
      List.Chain withinQuiet p bs →
      runEvents ⟨some (p.1 + 600), p.2, iid, reqs⟩ (bs.map mkInput) =
        ⟨some ((bs.getLastD p).1 + 600), (bs.getLastD p).2, iid, reqs⟩ := by
  induction bs with
  | nil =>
    intro p iid reqs _
    simp [runEvents, List.getLastD]
  | cons q qs ih =>
    intro p iid reqs hchain
    rcases hchain with _ | ⟨hpq, hchain⟩
    have hlt : q.1 < p.1 + 600 := hpq.2
    have hnofire :
        fireIfDue q.1 (⟨some (p.1 + 600), p.2, iid, reqs⟩ : AppState) =
          ⟨some (p.1 + 600), p.2, iid, reqs⟩ := by
      have hn : ¬ p.1 + 600 ≤ q.1 := by omega
      simp [fireIfDue, hn]
    have hstep :
        stepEv (⟨some (p.1 + 600), p.2, iid, reqs⟩ : AppState) (mkInput q) =
          ⟨some (q.1 + 600), q.2, iid, reqs⟩ := by
      simp [stepEv, mkInput, Ev.time, hnofire]
    have hgl : (q :: qs).getLastD p = qs.getLastD q := by
      cases qs <;> simp [List.getLastD]
    rw [List.map_cons, runEvents, hstep, hgl]
    exact ih q iid reqs hchain

/-- C1. For any burst of control-input events in which each event arrives
within the 600ms quiet period of the previous one, the whole burst issues
at most one process request, and any request issued carries the control
values of the final event (the values present when the quiet period
finally elapses).  With an editor session active, the single request
targets that session's image. -/
theorem c1_debounce_single_request (p : Nat × Controls)
    (bs : List (Nat × Controls)) (c0 : Controls) (iid : Option String)
    (hchain : List.Chain withinQuiet p bs) :
    (settle (runEvents (initState c0 iid)
        ((p :: bs).map mkInput))).requests.length ≤ 1 ∧
      (∀ r ∈ (settle (runEvents (initState c0 iid)
          ((p :: bs).map mkInput))).requests, r.2 = (bs.getLastD p).2) ∧
      (∀ i, iid = some i →
        (settle (runEvents (initState c0 iid) ((p :: bs).map mkInput))).requests
          = [(i, (bs.getLastD p).2)]) := by
  have hstep0 : stepEv (initState c0 iid) (mkInput p) =
      ⟨some (p.1 + 600), p.2, iid, []⟩ := by
    simp [stepEv, mkInput, Ev.time, fireIfDue, initState]
  have hrun : runEvents (initState c0 iid) ((p :: bs).map mkInput) =
      ⟨some ((bs.getLastD p).1 + 600), (bs.getLastD p).2, iid, []⟩ := by
    rw [List.map_cons, runEvents, hstep0]
    exact burst_run_eq bs p iid [] hchain
  rw [hrun]
  cases iid with
  | none => simp [settle]
  | some i => simp [settle]

/-- Witness for C1: a three-event burst at times 0, 100, 650 (each within
600ms of its predecessor) with an open session on image "img" issues
exactly one request, carrying the last event's controls. -/
theorem c1_debounce_single_request_witness :
    (settle (runEvents
        (initState ⟨0, 0, true, "floyd_steinberg", false⟩ (some "img"))
        (([(0, ⟨0, 0, true, "floyd_steinberg", false⟩),
           (100, ⟨5, 0, true, "floyd_steinberg", false⟩),
           (650, ⟨9, 2, false, "atkinson", false⟩)] :
          List (Nat × Controls)).map mkInput))).requests.length ≤ 1 ∧
      (settle (runEvents
        (initState ⟨0, 0, true, "floyd_steinberg", false⟩ (some "img"))
        (([(0, ⟨0, 0, true, "floyd_steinberg", false⟩),
           (100, ⟨5, 0, true, "floyd_steinberg", false⟩),
           (650, ⟨9, 2, false, "atkinson", false⟩)] :
          List (Nat × Controls)).map mkInput))).requests
        = [("img", ⟨9, 2, false, "atkinson", false⟩)] := by
  have h := c1_debounce_single_request
    (0, ⟨0, 0, true, "floyd_steinberg", false⟩)
    [(100, ⟨5, 0, true, "floyd_steinberg", false⟩),
     (650, ⟨9, 2, false, "atkinson", false⟩)]
    ⟨0, 0, true, "floyd_steinberg", false⟩ (some "img")
    (by
      constructor
      · exact ⟨by norm_num, by norm_num⟩
      constructor
      · exact ⟨by norm_num, by norm_num⟩
      · exact List.Chain.nil)
  refine ⟨h.1, ?_⟩
  have h3 := h.2.2 "img" rfl
  simpa [List.getLastD] using h3

end Thermalize

namespace Thermalize

/-! ### Claim C2: which image id does the debounced callback use?

The callback body begins `if (!currentImageId) return;` and then posts to
`/api/images/${currentImageId}/process`: both reads happen when the timer
fires, not when `scheduleProcessUpdate` armed it.  Nothing is captured at
schedule time.  `currentImageId` is assigned only in `openEditor`
(app.js line 288); closing the editor merely hides the modal. -/

/-- C2 counterexample (closed): schedule while image "imgA" is active,
then open image "imgB"'s editor inside the quiet period.  When the timer
fires, the code posts exactly one request, to "imgB" — the id re-read at
fire time, with imgB's freshly loaded settings — and no request to the
schedule-time id "imgA", so neither reading of the claim (post to the
captured id / drop the request) holds. -/
theorem c2_capture_at_schedule_counterexample :
    (settle (runEvents
        (initState ⟨0, 0, true, "floyd_steinberg", false⟩ (some "imgA"))
        [.input 0 ⟨3, 0, true, "floyd_steinberg", false⟩,
         .openEditor 100 ⟨"imgB", some ⟨some 7, some 4⟩, some "atkinson",
           none, some false⟩])).requests
      = [("imgB", ⟨7, 4, true, "atkinson", false⟩)] ∧
    (∀ r ∈ (settle (runEvents
        (initState ⟨0, 0, true, "floyd_steinberg", false⟩ (some "imgA"))
        [.input 0 ⟨3, 0, true, "floyd_steinberg", false⟩,
         .openEditor 100 ⟨"imgB", some ⟨some 7, some 4⟩, some "atkinson",
           none, some false⟩])).requests, r.1 ≠ "imgA") ∧
    (settle (runEvents
        (initState ⟨0, 0, true, "floyd_steinberg", false⟩ (some "imgA"))
        [.input 0 ⟨3, 0, true, "floyd_steinberg", false⟩,
         .openEditor 100 ⟨"imgB", some ⟨some 7, some 4⟩, some "atkinson",
           none, some false⟩])).requests ≠ [] := by
  refine ⟨by decide, by decide, by decide⟩

/-- C2 amended: the image id and the control values are re-read when the
debounced callback fires; nothing is captured at schedule time.  If the
editor switched to a different image before the timer fired, the single
request targets the newly opened image and carries that image's freshly
loaded settings, so no request is ever issued under the stale
schedule-time target's id.  Closing the editor only hides the modal and
never clears `currentImageId`, so a close leaves this state untouched and
a pending request still fires for the image whose editor was open. -/
theorem c2_fire_time_id (oldId : Option String) (a : String)
    (c0 c : Controls) (img : EditorImage) (t0 t1 : Nat)
    (h0 : t0 ≤ t1) (h1 : t1 < t0 + 600) :
    (settle (runEvents (initState c0 oldId)
        [.input t0 c, .openEditor t1 img])).requests
      = [(img.id, loadControls img)] ∧
    (settle (runEvents (initState c0 (some a)) [.input t0 c])).requests
      = [(a, c)] := by
  constructor
  · have hstep0 : stepEv (initState c0 oldId) (.input t0 c) =
        ⟨some (t0 + 600), c, oldId, []⟩ := by
      simp [stepEv, Ev.time, fireIfDue, initState]
    have hstep1 : stepEv (⟨some (t0 + 600), c, oldId, []⟩ : AppState)
        (.openEditor t1 img) =
          ⟨some (t0 + 600), loadControls img, some img.id, []⟩ := by
      have hn : ¬ t0 + 600 ≤ t1 := by omega
      simp [stepEv, Ev.time, fireIfDue, hn]
    have hrun : runEvents (initState c0 oldId)
        [.input t0 c, .openEditor t1 img] =
          ⟨some (t0 + 600), loadControls img, some img.id, []⟩ := by
      rw [runEvents, hstep0, runEvents, hstep1, runEvents]
    rw [hrun]
    simp [settle]
  · have hstep0 : stepEv (initState c0 (some a)) (.input t0 c) =
        ⟨some (t0 + 600), c, some a, []⟩ := by
      simp [stepEv, Ev.time, fireIfDue, initState]
    have hrun : runEvents (initState c0 (some a)) [.input t0 c] =
        ⟨some (t0 + 600), c, some a, []⟩ := by
      rw [runEvents, hstep0, runEvents]
    rw [hrun]
    simp [settle]

/-- Witness for C2 amended: switching from "imgA" to "imgB" 100ms into
the quiet period posts the single request to "imgB" with imgB's loaded
settings; with no switch the request goes to the open image with the
input's values. -/
theorem c2_fire_time_id_witness :
    (settle (runEvents
        (initState ⟨0, 0, true, "floyd_steinberg", false⟩ (some "imgA"))
        [.input 0 ⟨3, 0, true, "floyd_steinberg", false⟩,
         .openEditor 100 ⟨"imgB", some ⟨some 7, some 4⟩, some "atkinson",
           none, some false⟩])).requests
      = [("imgB",
          loadControls ⟨"imgB", some ⟨some 7, some 4⟩, some "atkinson",
            none, some false⟩)] ∧
    (settle (runEvents
        (initState ⟨0, 0, true, "floyd_steinberg", false⟩ (some "imgA"))
        [.input 0 ⟨3, 0, true, "floyd_steinberg", false⟩])).requests
      = [("imgA", ⟨3, 0, true, "floyd_steinberg", false⟩)] :=
  c2_fire_time_id (some "imgA") "imgA"
    ⟨0, 0, true, "floyd_steinberg", false⟩
    ⟨3, 0, true, "floyd_steinberg", false⟩
    ⟨"imgB", some ⟨some 7, some 4⟩, some "atkinson", none, some false⟩
    0 100 (by norm_num) (by norm_num)

end Thermalize

namespace Thermalize

/-! ## GPIO button assignments
(`populateGpioDropdowns` app.js lines 585-627, `handleGpioChange` app.js
lines 642-668)

`populateGpioDropdowns(assignments)` sets each select `gpio-btn-N` to the
confirmed assignment: `el.value = currentVal` when `currentVal` is truthy,
else `""`.  `handleGpioChange` re-reads all four selects, builds
`assignments[num] = el.value || null`, and posts the single body
`{ button_assignments: assignments }` to POST /api/config. -/

/-- The four GPIO buttons "1".."4". -/
inductive Btn where
  | b1
  | b2
  | b3
  | b4
deriving DecidableEq, Repr

/-- `Config.button_assignments`: image id or null per button. -/
structure ButtonAssignments where
  btn1 : Option String
  btn2 : Option String
  btn3 : Option String
  btn4 : Option String
deriving DecidableEq, Repr

/-- Field lookup by button. -/
def ButtonAssignments.get (a : ButtonAssignments) : Btn → Option String
  | .b1 => a.btn1
  | .b2 => a.btn2
  | .b3 => a.btn3
  | .b4 => a.btn4

/-- The current `value` of each `gpio-btn-N` select element. -/
structure GpioSelects where
  sel1 : String
  sel2 : String
  sel3 : String
  sel4 : String
deriving DecidableEq, Repr

/-- Select-value lookup by button. -/
def GpioSelects.get (g : GpioSelects) : Btn → String
  | .b1 => g.sel1
  | .b2 => g.sel2
  | .b3 => g.sel3
  | .b4 => g.sel4

/-- The user changing one select's value. -/
def GpioSelects.set (g : GpioSelects) : Btn → String → GpioSelects
  | .b1, v => ⟨v, g.sel2, g.sel3, g.sel4⟩
  | .b2, v => ⟨g.sel1, v, g.sel3, g.sel4⟩
  | .b3, v => ⟨g.sel1, g.sel2, v, g.sel4⟩
  | .b4, v => ⟨g.sel1, g.sel2, g.sel3, v⟩

/-- `if (currentVal) el.value = currentVal; else el.value = ""` —
JavaScript truthiness: null and the empty string both give `""`. -/
def selValue (v : Option String) : String :=
  match v with
  | some s => if s = "" then "" else s
  | none => ""

/-- `populateGpioDropdowns`: load the confirmed assignments into the
four selects. -/
def populateGpioDropdowns (a : ButtonAssignments) : GpioSelects :=
  ⟨selValue (a.get .b1), selValue (a.get .b2),
   selValue (a.get .b3), selValue (a.get .b4)⟩

/-- `assignments[num] = el.value || null`. -/
def readSelValue (s : String) : Option String :=
  if s = "" then none else some s

/-- The mapping `handleGpioChange` rebuilds from all four selects. -/
def readAssignments (g : GpioSelects) : ButtonAssignments :=
  ⟨readSelValue g.sel1, readSelValue g.sel2,
   readSelValue g.sel3, readSelValue g.sel4⟩

/-- `config.printer` as read by `loadConfig`. -/
structure PrinterConfig where
  type : Option String
  protocol : Option String
  bluetooth_mac : Option String
deriving DecidableEq, Repr

/-- `config.image_settings`. -/
structure ImageSettings where
  max_width : Option Nat
deriving DecidableEq, Repr

/-- A partial POST /api/config body: only the fields present in the
JSON object are `some`. -/
structure ConfigUpdate where
  image_settings : Option ImageSettings
  printer : Option PrinterConfig
  button_assignments : Option ButtonAssignments
deriving DecidableEq, Repr

/-- `handleGpioChange` after the user changed `changed` to `newVal`: the
select already holds the new value when the change event runs; the
handler re-reads all four selects and posts exactly
`{ button_assignments: assignments }`. -/
def handleGpioChange (g : GpioSelects) (changed : Btn) (newVal : String) :
    ConfigUpdate :=
  { image_settings := none
    printer := none
    button_assignments := some (readAssignments (g.set changed newVal)) }

end Thermalize

namespace Thermalize

/-- Populate/read round-trip for one button, provided the confirmed
assignment is not the degenerate empty-string id. -/
theorem readSel_selValue (v : Option String) (h : v ≠ some "") :
    readSelValue (selValue v) = v := by
  cases v with
  | none => simp [selValue, readSelValue]
  | some s =>
    have hs : s ≠ "" := by
      intro h2
      exact h (by rw [h2])
    simp [selValue, readSelValue, hs]

/-- C5. Starting from selects populated from the last confirmed config
(whose assignments are image ids or null, never the empty string),
changing one button posts a single partial update containing the complete
four-button mapping and nothing else: the three untouched buttons keep
exactly their confirmed assignments, the changed button carries the new
selection (null when "-- None --" was chosen), and no other Config field
appears in the write. -/
theorem c5_gpio_change_preserves_siblings (c : ButtonAssignments)
    (hv : ∀ b, c.get b ≠ some "") (changed : Btn) (newVal : String) :
    (handleGpioChange (populateGpioDropdowns c) changed newVal).printer
        = none ∧
    (handleGpioChange (populateGpioDropdowns c) changed newVal).image_settings
        = none ∧
    ∃ m, (handleGpioChange (populateGpioDropdowns c) changed
            newVal).button_assignments = some m ∧
      (∀ b, b ≠ changed → m.get b = c.get b) ∧
      m.get changed = readSelValue newVal := by
  have h1 : readSelValue (selValue c.btn1) = c.btn1 :=
    readSel_selValue _ (hv .b1)
  have h2 : readSelValue (selValue c.btn2) = c.btn2 :=
    readSel_selValue _ (hv .b2)
  have h3 : readSelValue (selValue c.btn3) = c.btn3 :=
    readSel_selValue _ (hv .b3)
  have h4 : readSelValue (selValue c.btn4) = c.btn4 :=
    readSel_selValue _ (hv .b4)
  refine ⟨rfl, rfl, _, rfl, ?_, ?_⟩
  · intro b hb
    cases changed <;> cases b <;>
      first
        | exact absurd rfl hb
        | simp [handleGpioChange, readAssignments, populateGpioDropdowns,
            GpioSelects.set, ButtonAssignments.get, h1, h2, h3, h4]
  · cases changed <;>
      simp [handleGpioChange, readAssignments, populateGpioDropdowns,
        GpioSelects.set, ButtonAssignments.get]

/-- Witness for C5: with buttons 1,3 assigned and 2,4 empty, assigning
button 2 to image "X" leaves 1, 3 and 4 exactly as confirmed and posts
only the button_assignments field. -/
theorem c5_gpio_change_preserves_siblings_witness :
    (handleGpioChange
        (populateGpioDropdowns ⟨some "a1", none, some "c3", none⟩)
        .b2 "X").printer = none ∧
    (handleGpioChange
        (populateGpioDropdowns ⟨some "a1", none, some "c3", none⟩)
        .b2 "X").image_settings = none ∧
    ∃ m, (handleGpioChange
        (populateGpioDropdowns ⟨some "a1", none, some "c3", none⟩)
        .b2 "X").button_assignments = some m ∧
      (∀ b, b ≠ Btn.b2 →
        m.get b = ButtonAssignments.get ⟨some "a1", none, some "c3", none⟩ b) ∧
      m.get .b2 = readSelValue "X" :=
  c5_gpio_change_preserves_siblings ⟨some "a1", none, some "c3", none⟩
    (by intro b; cases b <;> simp [ButtonAssignments.get]) .b2 "X"

end Thermalize

namespace Thermalize

/-! ## Printer session actions
(`reconnectPrinter` app.js lines 448-489, `disconnectBluetooth` lines
491-528, `unpairBluetooth` lines 530-568)

`disconnectBluetooth` and `unpairBluetooth` both open with

    if (btn.disabled) return;
    if (!confirm(...)) return;
    btn.disabled = true;

before issuing their POST.  `reconnectPrinter` has no such check: it sets
`btn.disabled = true` and issues its POST unconditionally.  Each model
takes the button state at invocation time, the confirm answer, and the
`success` field of the response (`none` for a null result), and returns
the button state right after the handler's own statements ran (the 2s
`setTimeout` label restore has not happened yet) together with the number
of action POSTs issued. -/

/-- A button element: its `disabled` attribute and label. -/
structure BtnState where
  disabled : Bool
  text : String
deriving DecidableEq, Repr

/-- `disconnectBluetooth`. -/
def disconnectBluetooth (s : BtnState) (confirmed : Bool)
    (result : Option Bool) : BtnState × Nat :=
  if s.disabled then (s, 0)
  else if !confirmed then (s, 0)
  else
    match result with
    | some true => (⟨true, "✓ Disconnected"⟩, 1)
    | _ => (⟨true, "✗ Failed"⟩, 1)

/-- `unpairBluetooth` (on failure it restores the label and re-enables
the button immediately, without the 2s delay). -/
def unpairBluetooth (s : BtnState) (confirmed : Bool)
    (result : Option Bool) : BtnState × Nat :=
  if s.disabled then (s, 0)
  else if !confirmed then (s, 0)
  else
    match result with
    | some true => (⟨true, "✓ Unpaired"⟩, 1)
    | _ => (⟨false, s.text⟩, 1)

/-- `reconnectPrinter`: no entry guard on `disabled` in the source. -/
def reconnectPrinter (_s : BtnState) (result : Option Bool) :
    BtnState × Nat :=
  match result with
  | some true => (⟨true, "✓ Connected"⟩, 1)
  | _ => (⟨true, "✗ Failed"⟩, 1)

/-- Button state while a first `reconnectPrinter` awaits its response. -/
def reconnectInFlight : BtnState := ⟨true, "Reconnecting..."⟩

/-- Button state while a first `disconnectBluetooth` awaits its
response. -/
def disconnectInFlight : BtnState := ⟨true, "Disconnecting..."⟩

/-- Button state while a first `unpairBluetooth` awaits its response. -/
def unpairInFlight : BtnState := ⟨true, "Unpairing..."⟩

end Thermalize

namespace Thermalize

/-- C6 counterexample (closed): invoking `reconnectPrinter` again while
an identical invocation is in flight (its button already disabled) still
issues another POST /api/printer/reconnect — the source has no
re-entrancy guard in that handler, so the claimed no-op fails for the
reconnect action. -/
theorem c6_reconnect_counterexample :
    (reconnectPrinter reconnectInFlight (some true)).2 = 1 ∧
      (reconnectPrinter reconnectInFlight (some true)).2 ≠ 0 := by
  constructor
  · rfl
  · decide

/-- C6 amended: the disconnect and unpair handlers are idempotent against
double-invocation — a second call while an identical action is in flight
(button disabled) issues no request and changes nothing.  The reconnect
handler has no such internal guard and relies only on the browser
suppressing clicks on a disabled button. -/
theorem c6_disconnect_unpair_reentrancy_guard (s : BtnState)
    (confirmed : Bool) (result : Option Bool) (h : s.disabled = true) :
    disconnectBluetooth s confirmed result = (s, 0) ∧
      unpairBluetooth s confirmed result = (s, 0) := by
  constructor <;> simp [disconnectBluetooth, unpairBluetooth, h]

/-- Witness for C6 amended: a second disconnect and a second unpair
during the in-flight states are no-ops. -/
theorem c6_disconnect_unpair_reentrancy_guard_witness :
    disconnectBluetooth disconnectInFlight true (some true)
        = (disconnectInFlight, 0) ∧
      unpairBluetooth disconnectInFlight true (some true)
        = (disconnectInFlight, 0) :=
  c6_disconnect_unpair_reentrancy_guard disconnectInFlight true (some true)
    rfl

end Thermalize

namespace Thermalize

/-! ## Bluetooth scan (`scanBluetooth`, app.js lines 393-426; part_000
lines 294-314)

    list.innerHTML = '';
    loader.classList.remove('hidden');
    try {
        const response = await callApi('/api/printer/bluetooth/scan?timeout=20');
        loader.classList.add('hidden');
        const devices = response?.devices || [];
        if (devices && devices.length > 0) { ...render items... }
        else { list.innerHTML = '<li>No devices found</li>'; }
    } catch (error) {
        loader.classList.add('hidden');
        ...
    }

`callApi` is total (claim C3), so the `catch` arm is unreachable and the
straight-line trace below is the behavior on every fetch outcome. -/

/-- A scan result entry as the backend returns it. -/
structure BtDevice where
  name : Option String
  mac : Option String
  address : Option String
deriving DecidableEq, Repr

/-- Body of a scan response: `{success, devices, count}` with each field
possibly absent. -/
structure ScanResponse where
  success : Option Bool
  devices : Option (List BtDevice)
  count : Option Nat
deriving DecidableEq, Repr

/-- The DOM operations the scan handler performs, in order. -/
inductive UiOp where
  | clearList
  | showLoader
  | hideLoader
  | renderDevices (n : Nat)
  | renderEmpty
deriving DecidableEq, Repr

/-- `scanBluetooth` as its trace of DOM operations. -/
def scanBluetooth (f : FetchOutcome ScanResponse) : List UiOp :=
  let response := callApi .GET f
  let devices : List BtDevice :=
    match response with
    | none => []
    | some r =>
      match r.devices with
      | none => []
      | some ds => ds
  [.clearList, .showLoader, .hideLoader] ++
    (if 0 < devices.length then [.renderDevices devices.length]
     else [.renderEmpty])

/-- Loader visibility after replaying a trace of DOM operations. -/
def loaderShownAfter (ops : List UiOp) : Bool :=
  ops.foldl
    (fun b op =>
      match op with
      | .showLoader => true
      | .hideLoader => false
      | _ => b)
    false

/-- C7. On every exit path of the scan — devices found, zero devices, and
failure (null result from a transport error, a non-2xx status, or a
malformed body) — the loading indicator is hidden exactly once, and it
ends hidden. -/
theorem c7_scan_clears_loader (f : FetchOutcome ScanResponse) :
    (scanBluetooth f).count .hideLoader = 1 ∧
      loaderShownAfter (scanBluetooth f) = false := by
  rw [scanBluetooth]
  split <;>
    simp [loaderShownAfter, List.count_cons, List.count_nil]

end Thermalize

namespace Thermalize

/-! ## Gallery rendering (`refreshGallery`, app.js lines 223-264)

Per image card:

    const ditherMethod = img.dither_method || 'floyd_steinberg';
    const rawMode = img.raw_mode || false;
    const methodLabel = rawMode ? 'RAW' : ditherMethod.replace('_', ' ').toUpperCase();
    ...
    card.innerHTML = `<img src="/api/images/${img.id}/preview?t=${Date.now()}" ...>`;

JavaScript `String.prototype.replace` with a string pattern replaces only
the *first* occurrence. -/

/-- An entry of the GET /api/images list as the gallery reads it;
optional fields may be absent. -/
structure GalleryImage where
  id : String
  timestamp : Option Nat
  dither_method : Option String
  raw_mode : Option Bool
deriving DecidableEq, Repr

/-- `img.dither_method || 'floyd_steinberg'` (the empty string is falsy). -/
def ditherOf (img : GalleryImage) : String :=
  match img.dither_method with
  | some s => if s = "" then "floyd_steinberg" else s
  | none => "floyd_steinberg"

/-- `img.raw_mode || false`. -/
def rawModeOf (img : GalleryImage) : Bool :=
  match img.raw_mode with
  | some b => b
  | none => false

/-- JavaScript `replace` with a one-character string pattern: rewrite the
first occurrence only. -/
def replaceFirstChar (pat rep : Char) : List Char → List Char
  | [] => []
  | c :: cs => if c = pat then rep :: cs else c :: replaceFirstChar pat rep cs

/-- The gallery badge text computed by `refreshGallery`. -/
def methodLabel (img : GalleryImage) : String :=
  if rawModeOf img then "RAW"
  else ⟨(replaceFirstChar '_' ' ' (ditherOf img).data).map Char.toUpper⟩

/-- Replace every occurrence of a character. -/
def replaceAllChar (pat rep : Char) (l : List Char) : List Char :=
  l.map fun c => if c = pat then rep else c

/-- The badge as the specification words it: raw mode wins, otherwise the
dither method name with *every* underscore replaced by a space, then
upper-cased.  Kept separate from `methodLabel` so the two renderings can
be compared. -/
def specMethodLabel (img : GalleryImage) : String :=
  if rawModeOf img then "RAW"
  else ⟨(replaceAllChar '_' ' ' (ditherOf img).data).map Char.toUpper⟩

end Thermalize

namespace Thermalize

/-- C8 counterexample (closed): for a non-raw image whose dither method
name has two underscores, the rendered badge keeps the second underscore,
while the claim's every-separator reading demands spaces for both. -/
theorem c8_replace_first_counterexample :
    methodLabel ⟨"x", none, some "jarvis_judice_ninke", some false⟩
        = "JARVIS JUDICE_NINKE" ∧
      specMethodLabel ⟨"x", none, some "jarvis_judice_ninke", some false⟩
        = "JARVIS JUDICE NINKE" ∧
      methodLabel ⟨"x", none, some "jarvis_judice_ninke", some false⟩
        ≠ specMethodLabel ⟨"x", none, some "jarvis_judice_ninke", some false⟩ := by
  refine ⟨by decide, by decide, by decide⟩

/-- Replacing every occurrence in a list without the pattern changes
nothing. -/
theorem replaceAll_of_not_mem (pat rep : Char) (l : List Char)
    (h : pat ∉ l) : replaceAllChar pat rep l = l := by
  induction l with
  | nil => rfl
  | cons c cs ih =>
    have hc : ¬ c = pat := fun hcp => h (by rw [hcp]; exact List.mem_cons_self _ _)
    have hcs : pat ∉ cs := fun hm => h (List.mem_cons_of_mem _ hm)
    simp [replaceAllChar, hc] at ih ⊢
    exact ih hcs

/-- When the pattern occurs at most once, first-occurrence replacement
and every-occurrence replacement agree. -/
theorem replaceFirst_eq_replaceAll (pat rep : Char) (l : List Char)
    (h : l.count pat ≤ 1) : replaceFirstChar pat rep l = replaceAllChar pat rep l := by
  induction l with
  | nil => rfl
  | cons c cs ih =>
    by_cases hc : c = pat
    · subst hc
      have hcount : cs.count c = 0 := by
        have := List.count_cons_self c cs
        omega
      have hnot : c ∉ cs := by
        rw [← List.count_eq_zero]
        exact hcount
      simp [replaceFirstChar, replaceAllChar]
      exact (replaceAll_of_not_mem c rep cs hnot).symm
    · have hcount : cs.count pat ≤ 1 := by
        have := List.count_cons_of_ne (by exact fun hpc => hc hpc.symm : pat ≠ c) cs
        omega
      simp [replaceFirstChar, replaceAllChar, hc]
      simpa [replaceAllChar] using ih hcount

/-- C8 amended: an image with raw_mode true is always labelled "RAW"
regardless of its dither method; otherwise the label upper-cases the
method name with only the *first* underscore replaced by a space — which
coincides with the claim's every-separator rendering exactly when the
method name contains at most one underscore. -/
theorem c8_method_label (img : GalleryImage) :
    (rawModeOf img = true → methodLabel img = "RAW") ∧
      (rawModeOf img = false → (ditherOf img).data.count '_' ≤ 1 →
        methodLabel img = specMethodLabel img) := by
  constructor
  · intro hraw
    simp [methodLabel, hraw]
  · intro hraw hcount
    simp [methodLabel, specMethodLabel, hraw,
      replaceFirst_eq_replaceAll '_' ' ' (ditherOf img).data hcount]

/-- Witness for C8 amended, both arms at concrete inputs: a raw image
with a non-trivial dither method is labelled "RAW", and the default
single-underscore method renders identically under both readings. -/
theorem c8_method_label_witness :
    methodLabel ⟨"a", none, some "atkinson", some true⟩ = "RAW" ∧
      methodLabel ⟨"b", none, some "floyd_steinberg", some false⟩
        = specMethodLabel ⟨"b", none, some "floyd_steinberg", some false⟩ :=
  ⟨(c8_method_label ⟨"a", none, some "atkinson", some true⟩).1 rfl,
   (c8_method_label ⟨"b", none, some "floyd_steinberg", some false⟩).2 rfl
     (by decide)⟩

end Thermalize

namespace Thermalize

/-! ## Cache-busting preview fetches
(`refreshGallery` app.js lines 253-257, `updatePreviewImage` lines
307-310)

Every preview URL appends `?t=${Date.now()}`: the wall-clock millisecond
at the moment that particular card or reload is rendered.  We model the
clock as a function from the render step to the millisecond it returns. -/

/-- The preview URL built for one fetch. -/
def previewUrl (id : String) (now : Nat) : String :=
  "/api/images/" ++ id ++ "/preview?t=" ++ toString now

/-- The `t` cache-bust values of the gallery's cards, in render order:
card k reads the clock at step k. -/
def galleryCacheBusts (imgs : List GalleryImage) (clock : Nat → Nat) :
    List Nat :=
  (List.range imgs.length).map clock

/-- The full preview URLs of the gallery's cards, in render order. -/
def galleryPreviewUrls (imgs : List GalleryImage) (clock : Nat → Nat) :
    List String :=
  List.zipWith (fun img k => previewUrl img.id (clock k)) imgs
    (List.range imgs.length)

end Thermalize

namespace Thermalize

/-- C9 counterexample (closed): two gallery cards rendered in the same
millisecond — distinct fetches for distinct image ids — share the same
cache-bust value, so the values are not pairwise distinct per request. -/
theorem c9_same_millisecond_counterexample :
    galleryPreviewUrls
        [⟨"a", none, none, none⟩, ⟨"b", none, none, none⟩] (fun _ => 1111)
      = ["/api/images/a/preview?t=1111", "/api/images/b/preview?t=1111"] ∧
    (galleryCacheBusts
        [⟨"a", none, none, none⟩, ⟨"b", none, none, none⟩]
        (fun _ => 1111)).getD 0 0 =
      (galleryCacheBusts
        [⟨"a", none, none, none⟩, ⟨"b", none, none, none⟩]
        (fun _ => 1111)).getD 1 0 := by
  constructor
  · rfl
  · rfl

/-- Cache-bust value of the k-th card. -/
theorem galleryCacheBusts_getD (imgs : List GalleryImage)
    (clock : Nat → Nat) (k : Nat) (hk : k < imgs.length) :
    (galleryCacheBusts imgs clock).getD k 0 = clock k := by
  rw [galleryCacheBusts]
  rw [List.getD_eq_getElem?_getD]
  simp [List.getElem?_map, List.getElem?_range, hk]

/-- C9 amended: the cache-bust parameter is the wall-clock millisecond at
which each fetch is issued; distinct fetches get distinct values exactly
when the clock has advanced between them.  Under a strictly increasing
clock every pair of gallery fetches carries distinct values; two fetches
inside the same millisecond share one (see the counterexample). -/
theorem c9_cache_bust_distinct_under_advancing_clock
    (imgs : List GalleryImage) (clock : Nat → Nat)
    (hmono : ∀ i j, i < j → clock i < clock j)
    (i j : Nat) (hi : i < imgs.length) (hj : j < imgs.length)
    (hne : i ≠ j) :
    (galleryCacheBusts imgs clock).getD i 0 ≠
      (galleryCacheBusts imgs clock).getD j 0 := by
  rw [galleryCacheBusts_getD imgs clock i hi,
    galleryCacheBusts_getD imgs clock j hj]
  rcases Nat.lt_or_ge i j with hlt | hge
  · exact Nat.ne_of_lt (hmono i j hlt)
  · have hgt : j < i := lt_of_le_of_ne hge (Ne.symm hne)
    exact (Nat.ne_of_lt (hmono j i hgt)).symm

/-- Witness for C9 amended: with a clock advancing one millisecond per
card, the first two gallery fetches get distinct cache-bust values. -/
theorem c9_cache_bust_distinct_witness :
    (galleryCacheBusts
        [⟨"a", none, none, none⟩, ⟨"b", none, none, none⟩]
        (fun k => 1111 + k)).getD 0 0 ≠
      (galleryCacheBusts
        [⟨"a", none, none, none⟩, ⟨"b", none, none, none⟩]
        (fun k => 1111 + k)).getD 1 0 :=
  c9_cache_bust_distinct_under_advancing_clock
    [⟨"a", none, none, none⟩, ⟨"b", none, none, none⟩]
    (fun k => 1111 + k)
    (fun i j h => by show 1111 + i < 1111 + j; omega)
    0 1 (by decide) (by decide) (by decide)

end Thermalize
